import Mathlib

/-!
Verification of the plugin registry `cms/plugin_pool.py` (django-cms).

The module keeps a process-wide mapping from plugin class name to plugin
class, supports register/unregister with explicit error signalling, and
offers filtered, sorted views of the registered plugins.  The embedding
below models each method as a pure function over an explicit registry
state.  External framework services that the file merely calls out to
(`get_placeholder_conf` configuration lookup, URL composition, locale
activation) are abstracted as parameters or as a small explicit state,
matching only the way `plugin_pool.py` itself uses them.
-/

namespace CmsPluginPool

/-- A CMS plugin class, restricted to the attributes read by
`plugin_pool.py`.  `className` is the Python `__name__` of the class (the
registry key); `name` and `module` are the display attributes used as
sort keys; `is_cms_plugin_base_subclass` records the result of
`issubclass(plugin, CMSPluginBase)`; `value` is the attribute stamped at
registration time (`plugin.value = plugin_name`). -/
structure Plugin where
  className : String
  name : String
  module : String
  require_parent : Bool
  page_only : Bool
  text_enabled : Bool
  is_cms_plugin_base_subclass : Bool
  value : Option String
deriving Repr, DecidableEq

/-- A page object; `plugin_pool.py` only calls `page.get_template()`. -/
structure Page where
  template : String
deriving Repr, DecidableEq

/-- The registry state: the Python dict `self.plugins` (class name →
plugin class) modelled as an association list in insertion order.  The
`discovered` flag and `discover_plugins` (a one-time import scan) have no
effect on the values computed here and are omitted. -/
structure PluginPool where
  plugins : List (String × Plugin)
deriving Repr, DecidableEq

/-- Python truthiness of the `placeholder` argument (`if placeholder:`):
`None` and the empty string are falsy. -/
def pyTruthyStr : Option String → Bool
  | none => false
  | some s => !(s == "")

/-- Python truthiness of the `get_placeholder_conf` result
(`elif allowed_plugins:`): `None` and an empty list are both falsy. -/
def pyTruthyConf : Option (List String) → Bool
  | none => false
  | some l => !l.isEmpty

/-- The body of the `for plugin in plugins:` loop of `get_all_plugins`,
deciding the `include_plugin` flag for one plugin. -/
def include_plugin (placeholder : Option String)
    (allowed_plugins : Option (List String)) (setting_key : String)
    (include_page_only : Bool) (plugin : Plugin) : Bool :=
  let base : Bool :=
    if pyTruthyStr placeholder then
      if plugin.require_parent then false
      else if pyTruthyConf allowed_plugins then
        decide (plugin.className ∈ allowed_plugins.getD [])
      else if setting_key == "plugins" then true
      else false
    else false
  if plugin.page_only && !include_page_only then false else base

/-- Key order of `plugins.sort(key=lambda obj: force_unicode(obj.name))`:
`force_unicode` is the identity on the modelled string attribute.  Python
`list.sort` is a stable sort by the key, modelled by the stable
`List.insertionSort`. -/
def nameLE (a b : Plugin) : Prop := a.name ≤ b.name

/-- Key order of `sorted(plugins, key=lambda obj: force_unicode(obj.module))`. -/
def moduleLE (a b : Plugin) : Prop := a.module ≤ b.module

instance : DecidableRel nameLE :=
  fun a b => inferInstanceAs (Decidable (a.name ≤ b.name))

instance : DecidableRel moduleLE :=
  fun a b => inferInstanceAs (Decidable (a.module ≤ b.module))

instance : IsTotal Plugin nameLE := ⟨fun a b => le_total a.name b.name⟩

instance : IsTrans Plugin nameLE := ⟨fun _ _ _ hab hbc => le_trans hab hbc⟩

instance : IsTotal Plugin moduleLE := ⟨fun a b => le_total a.module b.module⟩

instance : IsTrans Plugin moduleLE := ⟨fun _ _ _ hab hbc => le_trans hab hbc⟩

/-- The `final_plugins` list built by the filtering pass of
`get_all_plugins`: the name-sorted registry values kept by
`include_plugin`.  The external `get_placeholder_conf` lookup is
abstracted as the argument `conf` (setting key, placeholder, template). -/
def final_plugins (pool : PluginPool)
    (conf : String → Option String → Option String → Option (List String))
    (placeholder : Option String) (page : Option Page)
    (setting_key : String) (include_page_only : Bool) : List Plugin :=
  (List.insertionSort nameLE (pool.plugins.map Prod.snd)).filter
    (include_plugin placeholder (conf setting_key placeholder (page.map Page.template))
      setting_key include_page_only)

/-- `PluginPool.get_all_plugins`.  Discovery and `set_plugin_meta` are
import/database side effects that do not affect the returned list.  Note
the fallback of the source: `if final_plugins: plugins = final_plugins`,
so an empty filter result leaves the full name-sorted list in place.  The
result is then re-sorted by module. -/
def get_all_plugins (pool : PluginPool)
    (conf : String → Option String → Option String → Option (List String))
    (placeholder : Option String) (page : Option Page)
    (setting_key : String) (include_page_only : Bool) : List Plugin :=
  let plugins := List.insertionSort nameLE (pool.plugins.map Prod.snd)
  let fp := final_plugins pool conf placeholder page setting_key include_page_only
  let plugins := if fp.isEmpty then plugins else fp
  List.insertionSort moduleLE plugins

/-- Outcome of `register_plugin`: normal return, or one of the two
exceptions it raises. -/
inductive RegisterOutcome where
  | ok
  | improperlyConfigured
  | pluginAlreadyRegistered
deriving Repr, DecidableEq

/-- State after a `register_plugin` call: the outcome together with the
registry and the plugin class object as the call leaves them (Python
mutates both in place). -/
structure RegisterResult where
  outcome : RegisterOutcome
  pool : PluginPool
  plugin : Plugin
deriving Repr, DecidableEq

/-- `PluginPool.register_plugin`.  The subclass check and the duplicate
check run before any mutation; on success the plugin is stamped with
`plugin.value = plugin_name` and inserted.  The trailing reversion
registration swallows its own error and never touches the registry, so it
is omitted. -/
def register_plugin (pool : PluginPool) (plugin : Plugin) : RegisterResult :=
  if !plugin.is_cms_plugin_base_subclass then
    ⟨.improperlyConfigured, pool, plugin⟩
  else
    let plugin_name := plugin.className
    if (pool.plugins.lookup plugin_name).isSome then
      ⟨.pluginAlreadyRegistered, pool, plugin⟩
    else
      let stamped := { plugin with value := some plugin_name }
      ⟨.ok, ⟨pool.plugins ++ [(plugin_name, stamped)]⟩, stamped⟩

/-- Outcome of `unregister_plugin`. -/
inductive UnregisterOutcome where
  | ok
  | pluginNotRegistered
deriving Repr, DecidableEq

/-- State after an `unregister_plugin` call. -/
structure UnregisterResult where
  outcome : UnregisterOutcome
  pool : PluginPool
deriving Repr, DecidableEq

/-- `PluginPool.unregister_plugin`: raise if the name is absent, else
`del self.plugins[plugin_name]` (a dict holds each key once, so deletion
removes every association-list entry carrying that key). -/
def unregister_plugin (pool : PluginPool) (plugin : Plugin) : UnregisterResult :=
  let plugin_name := plugin.className
  if (pool.plugins.lookup plugin_name).isNone then
    ⟨.pluginNotRegistered, pool⟩
  else
    ⟨.ok, ⟨pool.plugins.filter (fun kv => !(kv.1 == plugin_name))⟩⟩

/-- The accumulation loop of `get_text_enabled_plugins`:
`for plugin in plugins: if plugin.text_enabled and plugin not in final:
final.append(plugin)`. -/
def text_loop (final : List Plugin) : List Plugin → List Plugin
  | [] => final
  | plugin :: rest =>
    if plugin.text_enabled && !(decide (plugin ∈ final)) then
      text_loop (final ++ [plugin]) rest
    else
      text_loop final rest

/-- `PluginPool.get_text_enabled_plugins`: concatenate the default pass
and the `text_only_plugins` pass, then keep text-enabled plugins not yet
seen. -/
def get_text_enabled_plugins (pool : PluginPool)
    (conf : String → Option String → Option String → Option (List String))
    (placeholder : Option String) (page : Option Page) : List Plugin :=
  let plugins := get_all_plugins pool conf placeholder page "plugins" true
      ++ get_all_plugins pool conf placeholder page "text_only_plugins" true
  text_loop [] plugins

/-- Spec-side description of the de-duplication in
`get_text_enabled_plugins`: remove duplicates keeping only each
first occurrence of each element. -/
def dedup_keep_first (l : List Plugin) : List Plugin :=
  l.foldl (fun acc x => if x ∈ acc then acc else acc ++ [x]) []

/-- A Python `KeyError` raised by a failed dict lookup, carrying its key. -/
inductive PyKeyError where
  | keyError (key : String)
deriving Repr, DecidableEq

/-- `PluginPool.get_plugin`: `self.plugins[name]`, so an absent name
raises the `KeyError` of the dict itself, not a module exception. -/
def get_plugin (pool : PluginPool) (name : String) : Except PyKeyError Plugin :=
  match pool.plugins.lookup name with
  | none => .error (.keyError name)
  | some plugin => .ok plugin

/-- The Django translation state read and written by `plugin_pool.py`:
the currently active language (`None` once deactivated). -/
structure LocaleState where
  language : Option String
deriving Repr, DecidableEq

/-- `django.utils.translation.get_language`, as used here. -/
def get_language (st : LocaleState) : Option String := st.language

/-- `django.utils.translation.deactivate_all`, as used here. -/
def deactivate_all (st : LocaleState) : LocaleState := { st with language := none }

/-- `django.utils.translation.activate`, as used here. -/
def activate (lang : Option String) (st : LocaleState) : LocaleState :=
  { st with language := lang }

/-- A `try ... finally` block over an explicit state: the body returns a
normal or exceptional result together with the state it leaves behind,
and the cleanup runs on that state in either case. -/
def tryFinally {σ ε α : Type} (body : σ → Except ε α × σ) (cleanup : σ → σ)
    (s : σ) : Except ε α × σ :=
  let step := body s
  (step.1, cleanup step.2)

/-- `PluginPool.get_patterns`: save the active language, deactivate all
translation, build the URL patterns, and re-activate the saved language
in a `finally` block.  The pattern building itself (instantiating each
plugin and composing framework URL objects) is abstracted as the state
transformer `body`, which may raise. -/
def get_patterns (body : LocaleState → Except String (List String) × LocaleState)
    (st : LocaleState) : Except String (List String) × LocaleState :=
  let lang := get_language st
  tryFinally body (activate lang) (deactivate_all st)

/-- A configuration with no allow-list anywhere (the `get_placeholder_conf`
lookup always returns `None`). -/
def conf0 : String → Option String → Option String → Option (List String) :=
  fun _ _ _ => none

/-- A parent-requiring plugin, used to exercise the filter fallback. -/
def pRP : Plugin := ⟨"RP", "Rp name", "modA", true, false, false, true, none⟩

/-- An ordinary plugin accepted by the default filter. -/
def pOK : Plugin := ⟨"OK", "Ok name", "modB", false, false, true, true, none⟩

/-- A class that is not a `CMSPluginBase` subclass. -/
def pBad : Plugin := ⟨"Bad", "Bad name", "modD", false, false, false, false, none⟩

/-- Registered plugins used as registry fixtures. -/
def pA : Plugin := ⟨"A", "a name", "m", false, false, false, true, none⟩

/-- A second registry fixture. -/
def pB : Plugin := ⟨"B", "b name", "m", false, false, false, true, none⟩

/-- A fixture not present in `poolAB`. -/
def pC : Plugin := ⟨"C", "c name", "m", false, false, false, true, none⟩

/-- A registry holding only the parent-requiring plugin. -/
def pool1 : PluginPool := ⟨[("RP", pRP)]⟩

/-- A registry holding only the ordinary plugin. -/
def poolOK : PluginPool := ⟨[("OK", pOK)]⟩

/-- A registry holding two plugins. -/
def poolAB : PluginPool := ⟨[("A", pA), ("B", pB)]⟩

/-- A pattern-building body that raises. -/
def bodyBoom : LocaleState → Except String (List String) × LocaleState :=
  fun st => (Except.error "boom", st)

lemma include_plugin_eq_true_iff (placeholder : Option String)
    (allowed_plugins : Option (List String)) (setting_key : String)
    (include_page_only : Bool) (q : Plugin) :
    include_plugin placeholder allowed_plugins setting_key include_page_only q = true ↔
      pyTruthyStr placeholder = true ∧ q.require_parent = false ∧
      (if pyTruthyConf allowed_plugins = true
       then q.className ∈ allowed_plugins.getD []
       else setting_key = "plugins") ∧
      (include_page_only = false → q.page_only = false) := by
  unfold include_plugin
  cases hps : pyTruthyStr placeholder <;>
    cases hrp : q.require_parent <;>
      cases hconf : pyTruthyConf allowed_plugins <;>
        cases hpo : q.page_only <;>
          cases include_page_only <;>
            simp_all

lemma get_all_plugins_eq (pool : PluginPool)
    (conf : String → Option String → Option String → Option (List String))
    (placeholder : Option String) (page : Option Page)
    (setting_key : String) (include_page_only : Bool) :
    get_all_plugins pool conf placeholder page setting_key include_page_only =
      List.insertionSort moduleLE
        (if (final_plugins pool conf placeholder page setting_key include_page_only).isEmpty
         then List.insertionSort nameLE (pool.plugins.map Prod.snd)
         else final_plugins pool conf placeholder page setting_key include_page_only) := rfl

lemma pairwise_module_insertionSort (l : List Plugin) :
    (List.insertionSort moduleLE l).Pairwise (fun a b => a.module ≤ b.module) :=
  List.sorted_insertionSort moduleLE l

lemma lookup_filter_remove_self (l : List (String × Plugin)) (k : String) :
    (l.filter (fun kv => !(kv.1 == k))).lookup k = none := by
  induction l with
  | nil => rfl
  | cons kv rest ih =>
    obtain ⟨a, v⟩ := kv
    by_cases h : a = k
    · simp [List.filter_cons, h, ih]
    · have hba : (k == a) = false := beq_eq_false_iff_ne.mpr (Ne.symm h)
      simp [List.filter_cons, h, List.lookup_cons, hba, ih]

lemma lookup_filter_remove_other (l : List (String × Plugin)) (k k' : String)
    (h : k' ≠ k) :
    (l.filter (fun kv => !(kv.1 == k))).lookup k' = l.lookup k' := by
  induction l with
  | nil => rfl
  | cons kv rest ih =>
    obtain ⟨a, v⟩ := kv
    by_cases ha : a = k
    · subst ha
      have hba : (k' == a) = false := beq_eq_false_iff_ne.mpr h
      simp [List.filter_cons, List.lookup_cons, hba, ih]
    · by_cases ha' : k' = a <;>
        simp [List.filter_cons, ha, List.lookup_cons, ha', ih]

lemma text_loop_eq_foldl (l acc : List Plugin) :
    text_loop acc l =
      (l.filter (fun p => p.text_enabled)).foldl
        (fun a x => if x ∈ a then a else a ++ [x]) acc := by
  induction l generalizing acc with
  | nil => rfl
  | cons p rest ih =>
    by_cases hte : p.text_enabled = true
    · by_cases hmem : p ∈ acc
      · simp [text_loop, List.filter_cons, hte, hmem, ih]
      · simp [text_loop, List.filter_cons, hte, hmem, ih]
    · simp [text_loop, List.filter_cons, hte, ih]

lemma text_loop_nodup (l acc : List Plugin) (h : acc.Nodup) :
    (text_loop acc l).Nodup := by
  induction l generalizing acc with
  | nil => simpa [text_loop]
  | cons p rest ih =>
    by_cases hc : p.text_enabled = true ∧ p ∉ acc
    · have hstep : (acc ++ [p]).Nodup := by
        refine h.append (List.nodup_singleton p) ?_
        intro x hx hx'
        rw [List.mem_singleton] at hx'
        subst hx'
        exact hc.2 hx
      simpa [text_loop, hc.1, hc.2] using ih (acc ++ [p]) hstep
    · rcases Decidable.not_and_iff_or_not.mp hc with hte | hmem
      · simpa [text_loop, Bool.eq_false_iff.mpr hte] using ih acc h
      · have hmem' : p ∈ acc := Decidable.not_not.mp hmem
        simpa [text_loop, hmem'] using ih acc h

/-- C1 (counterexample): with a non-None placeholder, no allow-list, and a
single registered plugin that requires a parent, the filtering pass selects
nothing, so the `if final_plugins:` fallback returns the full list and the
returned plugin has `require_parent` true — refuting the claim that every
returned plugin is not parent-requiring. -/
theorem get_all_plugins_fallback_counterexample :
    ¬ (∀ q ∈ get_all_plugins pool1 conf0 (some "content") none "plugins" true,
        q.require_parent = false) := by
  decide

/-- C1 (amended): for every call with a non-None placeholder in which the
filtering pass selects at least one plugin, every returned plugin is not
parent-requiring and is either named in the configured allow-list or, when
no allow-list exists, implicitly allowed because the setting key is
"plugins"; and when `include_page_only` is false no returned plugin is
page-only. -/
theorem get_all_plugins_filter_nonempty_mem_spec (pool : PluginPool)
    (conf : String → Option String → Option String → Option (List String))
    (placeholder : Option String) (page : Option Page)
    (setting_key : String) (include_page_only : Bool)
    (_hpl : placeholder ≠ none)
    (hne : final_plugins pool conf placeholder page setting_key include_page_only ≠ []) :
    ∀ q ∈ get_all_plugins pool conf placeholder page setting_key include_page_only,
      q.require_parent = false ∧
      (if pyTruthyConf (conf setting_key placeholder (page.map Page.template)) = true
       then q.className ∈ (conf setting_key placeholder (page.map Page.template)).getD []
       else setting_key = "plugins") ∧
      (include_page_only = false → q.page_only = false) := by
  intro q hq
  rw [get_all_plugins_eq] at hq
  rw [List.mem_insertionSort] at hq
  have hie : ¬ ((final_plugins pool conf placeholder page setting_key
      include_page_only).isEmpty = true) := by
    simpa [List.isEmpty_iff] using hne
  rw [if_neg hie] at hq
  unfold final_plugins at hq
  rw [List.mem_filter] at hq
  have hinc := hq.2
  rw [include_plugin_eq_true_iff] at hinc
  exact ⟨hinc.2.1, hinc.2.2.1, hinc.2.2.2⟩

/-- C1 (witness): the amended statement applied to a registry holding one
ordinary plugin, a non-None placeholder and no allow-list. -/
theorem get_all_plugins_filter_nonempty_mem_spec_witness :
    (some "content" ≠ (none : Option String)) ∧
    final_plugins poolOK conf0 (some "content") none "plugins" true ≠ [] ∧
    ∀ q ∈ get_all_plugins poolOK conf0 (some "content") none "plugins" true,
      q.require_parent = false ∧
      (if pyTruthyConf (conf0 "plugins" (some "content")
            ((none : Option Page).map Page.template)) = true
       then q.className ∈ (conf0 "plugins" (some "content")
            ((none : Option Page).map Page.template)).getD []
       else "plugins" = "plugins") ∧
      (true = false → q.page_only = false) :=
  ⟨by decide, by decide,
    get_all_plugins_filter_nonempty_mem_spec poolOK conf0 (some "content") none
      "plugins" true (by decide) (by decide)⟩

/-- C2: the list returned by `get_all_plugins` is always sorted in
non-decreasing order by the `module` attribute of the plugins, whatever the
arguments, because the final step re-sorts by module. -/
theorem get_all_plugins_sorted_by_module (pool : PluginPool)
    (conf : String → Option String → Option String → Option (List String))
    (placeholder : Option String) (page : Option Page)
    (setting_key : String) (include_page_only : Bool) :
    (get_all_plugins pool conf placeholder page setting_key include_page_only).Pairwise
      (fun a b => a.module ≤ b.module) := by
  rw [get_all_plugins_eq]
  exact pairwise_module_insertionSort _

/-- C9: when the filtering pass selects no plugin, `get_all_plugins`
returns the full registry contents (a permutation of all registered
plugins, page-only and parent-requiring ones included) sorted by module
name. -/
theorem get_all_plugins_empty_filter_returns_all (pool : PluginPool)
    (conf : String → Option String → Option String → Option (List String))
    (placeholder : Option String) (page : Option Page)
    (setting_key : String) (include_page_only : Bool)
    (h : final_plugins pool conf placeholder page setting_key include_page_only = []) :
    (get_all_plugins pool conf placeholder page setting_key include_page_only).Perm
        (pool.plugins.map Prod.snd) ∧
    (get_all_plugins pool conf placeholder page setting_key include_page_only).Pairwise
        (fun a b => a.module ≤ b.module) := by
  constructor
  · rw [get_all_plugins_eq, h]
    simp only [List.isEmpty_nil, if_true]
    exact (List.perm_insertionSort moduleLE _).trans (List.perm_insertionSort nameLE _)
  · rw [get_all_plugins_eq]
    exact pairwise_module_insertionSort _

/-- C9 (witness): with a placeholder but only a parent-requiring plugin
registered (and `include_page_only` false), the filter selects nothing and
the full registry comes back. -/
theorem get_all_plugins_empty_filter_returns_all_witness :
    final_plugins pool1 conf0 (some "content") none "plugins" false = [] ∧
    ((get_all_plugins pool1 conf0 (some "content") none "plugins" false).Perm
        (pool1.plugins.map Prod.snd) ∧
     (get_all_plugins pool1 conf0 (some "content") none "plugins" false).Pairwise
        (fun a b => a.module ≤ b.module)) :=
  ⟨by decide,
    get_all_plugins_empty_filter_returns_all pool1 conf0 (some "content") none
      "plugins" false (by decide)⟩

/-- C3: for a subclass of the base plugin type, `register_plugin` raises
`PluginAlreadyRegistered` exactly when the class name is already a registry
key; when the name is absent the call succeeds and adds the entry mapping
the name to the (value-stamped) plugin. -/
theorem register_plugin_duplicate_iff (pool : PluginPool) (plugin : Plugin)
    (hsub : plugin.is_cms_plugin_base_subclass = true) :
    (((register_plugin pool plugin).outcome = RegisterOutcome.pluginAlreadyRegistered) ↔
        (pool.plugins.lookup plugin.className).isSome = true) ∧
    (pool.plugins.lookup plugin.className = none →
      (register_plugin pool plugin).outcome = RegisterOutcome.ok ∧
      (register_plugin pool plugin).pool.plugins.lookup plugin.className =
        some { plugin with value := some plugin.className }) := by
  cases hlk : pool.plugins.lookup plugin.className with
  | some p =>
    have h1 : (pool.plugins.lookup plugin.className).isSome = true := by simp [hlk]
    constructor
    · simp [register_plugin, hsub, h1]
    · intro hnone
      exact absurd hnone (by simp)
  | none =>
    have h1 : (pool.plugins.lookup plugin.className).isSome = false := by simp [hlk]
    constructor
    · simp [register_plugin, hsub, h1]
    · intro _
      refine ⟨by simp [register_plugin, hsub, h1], ?_⟩
      simp [register_plugin, hsub, h1, List.lookup_append, hlk]

/-- C3 (witness): registering a fresh subclass into a two-entry registry
succeeds and makes the stamped plugin retrievable under its class name. -/
theorem register_plugin_duplicate_iff_witness :
    pC.is_cms_plugin_base_subclass = true ∧
    poolAB.plugins.lookup pC.className = none ∧
    (register_plugin poolAB pC).outcome = RegisterOutcome.ok ∧
    (register_plugin poolAB pC).pool.plugins.lookup pC.className =
      some { pC with value := some pC.className } := by
  have h := (register_plugin_duplicate_iff poolAB pC (by decide)).2 (by decide)
  exact ⟨by decide, by decide, h.1, h.2⟩

/-- C4: `unregister_plugin` raises `PluginNotRegistered` exactly when the
class name is not a registry key; when it is present the call succeeds,
the name no longer resolves, and every other key still resolves as
before. -/
theorem unregister_plugin_spec (pool : PluginPool) (plugin : Plugin) :
    (((unregister_plugin pool plugin).outcome = UnregisterOutcome.pluginNotRegistered) ↔
        pool.plugins.lookup plugin.className = none) ∧
    ((pool.plugins.lookup plugin.className).isSome = true →
      (unregister_plugin pool plugin).outcome = UnregisterOutcome.ok ∧
      (unregister_plugin pool plugin).pool.plugins.lookup plugin.className = none ∧
      ∀ k, k ≠ plugin.className →
        (unregister_plugin pool plugin).pool.plugins.lookup k = pool.plugins.lookup k) := by
  cases hlk : pool.plugins.lookup plugin.className with
  | none =>
    have h1 : (pool.plugins.lookup plugin.className).isNone = true := by simp [hlk]
    constructor
    · simp [unregister_plugin, h1, hlk]
    · intro hs
      exact absurd hs (by simp)
  | some p =>
    have h1 : (pool.plugins.lookup plugin.className).isNone = false := by simp [hlk]
    constructor
    · simp [unregister_plugin, h1, hlk]
    · intro _
      refine ⟨by simp [unregister_plugin, h1], ?_, ?_⟩
      · simpa [unregister_plugin, h1] using
          lookup_filter_remove_self pool.plugins plugin.className
      · intro k hk
        simpa [unregister_plugin, h1] using
          lookup_filter_remove_other pool.plugins plugin.className k hk

/-- C4 (witness): removing one of two registered plugins succeeds, its name
stops resolving, and the other entry is untouched. -/
theorem unregister_plugin_spec_witness :
    (unregister_plugin poolAB pA).outcome = UnregisterOutcome.ok ∧
    (unregister_plugin poolAB pA).pool.plugins.lookup "A" = none ∧
    (unregister_plugin poolAB pA).pool.plugins.lookup "B" = poolAB.plugins.lookup "B" := by
  have h := (unregister_plugin_spec poolAB pA).2 (by decide)
  exact ⟨h.1, h.2.1, h.2.2 "B" (by decide)⟩

/-- C5: `get_text_enabled_plugins` equals the concatenation of the default
pass and the `text_only_plugins` pass, restricted to text-enabled plugins,
with duplicates removed keeping first occurrences; in particular it holds
no plugin twice. -/
theorem get_text_enabled_plugins_dedup (pool : PluginPool)
    (conf : String → Option String → Option String → Option (List String))
    (placeholder : Option String) (page : Option Page) :
    get_text_enabled_plugins pool conf placeholder page =
      dedup_keep_first
        ((get_all_plugins pool conf placeholder page "plugins" true ++
          get_all_plugins pool conf placeholder page "text_only_plugins" true).filter
          (fun p => p.text_enabled)) ∧
    (get_text_enabled_plugins pool conf placeholder page).Nodup := by
  constructor
  · unfold get_text_enabled_plugins dedup_keep_first
    exact text_loop_eq_foldl _ []
  · unfold get_text_enabled_plugins
    exact text_loop_nodup _ [] List.nodup_nil

/-- C6: `get_plugin` returns the registered class when the name is a
registry key and raises the `KeyError` of the dict itself (carrying the name, not
a module exception) when it is absent. -/
theorem get_plugin_lookup_spec (pool : PluginPool) (name : String) :
    (∀ p, pool.plugins.lookup name = some p → get_plugin pool name = Except.ok p) ∧
    (pool.plugins.lookup name = none →
      get_plugin pool name = Except.error (PyKeyError.keyError name)) := by
  constructor
  · intro p hp
    simp [get_plugin, hp]
  · intro h
    simp [get_plugin, h]

/-- C6 (witness): a present name resolves to its plugin, an absent name
raises `KeyError` with that name. -/
theorem get_plugin_lookup_spec_witness :
    get_plugin poolAB "A" = Except.ok pA ∧
    get_plugin poolAB "Z" = Except.error (PyKeyError.keyError "Z") :=
  ⟨(get_plugin_lookup_spec poolAB "A").1 pA (by decide),
   (get_plugin_lookup_spec poolAB "Z").2 (by decide)⟩

/-- C7: `get_patterns` restores the previously active language on every
path: the final state carries the initial language, a normal result of the
pattern-building body is returned, and an exception of the body is
propagated — in both cases after the `finally` re-activation. -/
theorem get_patterns_restores_language
    (body : LocaleState → Except String (List String) × LocaleState)
    (st : LocaleState) :
    (get_patterns body st).2.language = st.language ∧
    (∀ a, (body (deactivate_all st)).1 = Except.ok a →
        (get_patterns body st).1 = Except.ok a) ∧
    (∀ e, (body (deactivate_all st)).1 = Except.error e →
        (get_patterns body st).1 = Except.error e) :=
  ⟨rfl, fun _ ha => ha, fun _ he => he⟩

/-- C7 (witness): a body that raises still leaves the locale restored, and
its exception comes out of `get_patterns`. -/
theorem get_patterns_restores_language_witness :
    (get_patterns bodyBoom ⟨some "en"⟩).2.language = some "en" ∧
    (get_patterns bodyBoom ⟨some "en"⟩).1 = Except.error "boom" := by
  have h := get_patterns_restores_language bodyBoom ⟨some "en"⟩
  exact ⟨h.1, h.2.2 "boom" rfl⟩

/-- C8: registering a class that is not a `CMSPluginBase` subclass raises
`ImproperlyConfigured` and leaves both the registry and the class object
untouched. -/
theorem register_plugin_not_subclass_rejected (pool : PluginPool) (plugin : Plugin)
    (h : plugin.is_cms_plugin_base_subclass = false) :
    (register_plugin pool plugin).outcome = RegisterOutcome.improperlyConfigured ∧
    (register_plugin pool plugin).pool = pool ∧
    (register_plugin pool plugin).plugin = plugin := by
  simp [register_plugin, h]

/-- C8 (witness): the non-subclass fixture is rejected and nothing
changes. -/
theorem register_plugin_not_subclass_rejected_witness :
    pBad.is_cms_plugin_base_subclass = false ∧
    ((register_plugin poolAB pBad).outcome = RegisterOutcome.improperlyConfigured ∧
     (register_plugin poolAB pBad).pool = poolAB ∧
     (register_plugin poolAB pBad).plugin = pBad) :=
  ⟨by decide, register_plugin_not_subclass_rejected poolAB pBad (by decide)⟩

/-- C10: whenever `register_plugin` raises (either error), the registry is
exactly as before and the plugin object is unchanged — in particular its
`value` attribute has not been stamped; both checks precede any mutation. -/
theorem register_plugin_error_frame (pool : PluginPool) (plugin : Plugin)
    (h : (register_plugin pool plugin).outcome = RegisterOutcome.improperlyConfigured ∨
         (register_plugin pool plugin).outcome = RegisterOutcome.pluginAlreadyRegistered) :
    (register_plugin pool plugin).pool = pool ∧
    (register_plugin pool plugin).plugin = plugin ∧
    (register_plugin pool plugin).plugin.value = plugin.value := by
  by_cases hsub : plugin.is_cms_plugin_base_subclass = true
  · by_cases hlk : (pool.plugins.lookup plugin.className).isSome = true
    · simp [register_plugin, hsub, hlk]
    · exfalso
      rcases h with h | h <;> simp [register_plugin, hsub, hlk] at h
  · have hsub' : plugin.is_cms_plugin_base_subclass = false := by
      simpa using hsub
    simp [register_plugin, hsub']

/-- C10 (witness): registering an already-present name raises and leaves
the registry and the plugin object as they were. -/
theorem register_plugin_error_frame_witness :
    ((register_plugin poolAB pA).outcome = RegisterOutcome.improperlyConfigured ∨
     (register_plugin poolAB pA).outcome = RegisterOutcome.pluginAlreadyRegistered) ∧
    ((register_plugin poolAB pA).pool = poolAB ∧
     (register_plugin poolAB pA).plugin = pA ∧
     (register_plugin poolAB pA).plugin.value = pA.value) :=
  ⟨Or.inr (by decide), register_plugin_error_frame poolAB pA (Or.inr (by decide))⟩

end CmsPluginPool
